import Mathlib

/-!
Formal model of the `instituteforgov/csps` analysis pipeline
(`src/utils.py`, `src/analyse_pay.py`, `src/analyse_theme_scores.py`).

Long-format CSPS records are modelled as `Row`; the pivot engine
`filter_pivot_data` (utils.py lines 260-350, duplicated in
analyse_theme_scores.py lines 163-248) is translated step by step,
including the Python truthiness of `include_orgs`/`exclude_orgs` and the
pandas `pivot_table` aggregation semantics (arithmetic mean of the values
that share one (index key, Label) cell, a cell with no values staying
missing).  Numeric values are rationals; the `TypeError` branch for a
non-DataFrame argument is ruled out by typing and is not modelled.
-/

namespace Csps

/-- One long-format CSPS record: the columns of the cleaned survey table
that `filter_pivot_data` consults. -/
structure Row where
  organisation : String
  organisationType : String
  deptGroup : String
  year : Int
  label : String
  value : ℚ
  deriving DecidableEq

/-- A Python optional argument that may be a scalar or a list; mirrors the
`int | float | list[...] | None` / `str | list[str] | None` signatures of
`filter_pivot_data`. -/
inductive PyArg (α : Type)
  | none
  | scalar (a : α)
  | ofList (l : List α)
  deriving DecidableEq

/-- The coerce-to-list preamble of `filter_pivot_data` (utils.py lines
295-303): a scalar becomes a one-element list, `None` stays `None`. -/
def PyArg.toList? {α : Type} : PyArg α → Option (List α)
  | PyArg.none => Option.none
  | PyArg.scalar a => some [a]
  | PyArg.ofList l => some l

/-- Columns that can be named in `preserve_columns` (the analysis scripts
only ever pass "Organisation type", but "Departmental group" is also a
column of the frame). -/
inductive PCol
  | organisationType
  | deptGroup
  deriving DecidableEq

/-- Value of a preserved column in a row. -/
def PCol.colValue : PCol → Row → String
  | PCol.organisationType, r => r.organisationType
  | PCol.deptGroup, r => r.deptGroup

/-- A pivot-table index key: `index=["Year"] + preserve_columns` or
`index=["Organisation"] + preserve_columns` (utils.py lines 338-345). -/
inductive GKey
  | byYear (y : Int) (extra : List String)
  | byOrg (o : String) (extra : List String)
  deriving DecidableEq

/-- Index key for the single-organisation-over-time pivot mode. -/
def rowKeyYear (pcols : List PCol) (r : Row) : GKey :=
  GKey.byYear r.year (pcols.map (fun c => c.colValue r))

/-- Index key for the many-organisations-in-a-year pivot mode. -/
def rowKeyOrg (pcols : List PCol) (r : Row) : GKey :=
  GKey.byOrg r.organisation (pcols.map (fun c => c.colValue r))

/-- One row of the wide table returned by `pivot_table(...).reset_index()`:
the index key plus one cell per Label column. -/
structure WideRow where
  key : GKey
  cells : List (String × Option ℚ)
  deriving DecidableEq

/-- The rows of the filtered frame that fall into the (key, label) cell. -/
def matchingRows (key : Row → GKey) (rows : List Row) (k : GKey) (l : String) :
    List Row :=
  rows.filter (fun r => decide (key r = k) && decide (r.label = l))

/-- The content of one pivot-table cell: pandas `pivot_table` with the
default `aggfunc="mean"` takes the arithmetic mean of every value sharing
the cell, and leaves the cell missing when no row falls into it. -/
def cellValue (key : Row → GKey) (rows : List Row) (k : GKey) (l : String) :
    Option ℚ :=
  let vs := (matchingRows key rows k l).map Row.value
  if vs.isEmpty then Option.none else some (vs.sum / (vs.length : ℚ))

/-- `df_filtered.pivot_table(index=..., columns="Label", values="Value")`:
one wide row per distinct index key, one column per distinct Label. -/
def pivotTable (key : Row → GKey) (rows : List Row) : List WideRow :=
  ((rows.map key).dedup).map (fun k =>
    { key := k
      cells := ((rows.map Row.label).dedup).map
        (fun l => (l, cellValue key rows k l)) })

/-- The `include_orgs` override as evaluated inside the two filter branches:
`df_filtered["Organisation"].isin(include_orgs) if include_orgs else False`
(Python truthiness: `None` and the empty list both give `False`). -/
def includeHit (includeOrgs : Option (List String)) (r : Row) : Bool :=
  match includeOrgs with
  | some l => if l.isEmpty then false else decide (r.organisation ∈ l)
  | Option.none => false

/-- The filtering stage of `filter_pivot_data` (utils.py lines 308-330),
applied in source order: year filter, organisation-type filter (with the
include override), organisation filter (with the include override), then
the exclude list (skipped, per Python truthiness, when `None` or empty). -/
def filterRows (df : List Row) (yearFilter : Option (List Int))
    (otypeFilter : Option (List String)) (orgFilter : Option (List String))
    (excludeOrgs : Option (List String)) (includeOrgs : Option (List String)) :
    List Row :=
  let d1 := match yearFilter with
    | some ys => df.filter (fun r => decide (r.year ∈ ys))
    | Option.none => df
  let d2 := match otypeFilter with
    | some ts => d1.filter
        (fun r => decide (r.organisationType ∈ ts) || includeHit includeOrgs r)
    | Option.none => d1
  let d3 := match orgFilter with
    | some os => d2.filter
        (fun r => decide (r.organisation ∈ os) || includeHit includeOrgs r)
    | Option.none => d2
  match excludeOrgs with
  | some ex =>
      if ex.isEmpty then d3
      else d3.filter (fun r => !decide (r.organisation ∈ ex))
  | Option.none => d3

/-- The errors `filter_pivot_data` can raise (besides the untyped-input
`TypeError`, which the embedding's types rule out): empty input frame,
empty frame after filtering, and the both-or-neither axis `ValueError`. -/
inductive PivotErr
  | emptyInput
  | emptyAfterFilter
  | axisUsage
  deriving DecidableEq

/-- `filter_pivot_data` (utils.py lines 260-350): validation, argument
coercion, filtering, the empty-result check, and the two mutually
exclusive pivot modes with the `ValueError` fallback. -/
def filter_pivot_data (df : List Row) (yearFilter : PyArg Int)
    (otypeFilter : PyArg String) (orgFilter : PyArg String)
    (excludeOrgs : Option (List String)) (includeOrgs : Option (List String))
    (preserveColumns : Option (List PCol)) : Except PivotErr (List WideRow) :=
  if df.isEmpty then Except.error PivotErr.emptyInput
  else
    let yf := yearFilter.toList?
    let pc := preserveColumns.getD []
    let fr := filterRows df yf otypeFilter.toList? orgFilter.toList?
      excludeOrgs includeOrgs
    if fr.isEmpty then Except.error PivotErr.emptyAfterFilter
    else
      match orgFilter.toList?, yf with
      | some _, Option.none => Except.ok (pivotTable (rowKeyYear pc) fr)
      | Option.none, some _ => Except.ok (pivotTable (rowKeyOrg pc) fr)
      | _, _ => Except.error PivotErr.axisUsage

/-- Melting a wide table back to long format: one (key, label, value)
triple per non-missing cell. -/
def meltWide (ws : List WideRow) : List (GKey × String × ℚ) :=
  ws.flatMap (fun wr =>
    wr.cells.filterMap (fun c => c.2.map (fun v => (wr.key, c.1, v))))

/-- The (group key, Label) pairs of a long-format slice are unique: no two
distinct positions of the list share both. -/
def uniquePairs (key : Row → GKey) (rows : List Row) : Prop :=
  rows.Pairwise (fun r s => ¬ (key r = key s ∧ r.label = s.label))

/-- Pivoting `rows` and melting back reproduces exactly the set of
(key, label, value) triples of `rows`. -/
def tripleSetEq (key : Row → GKey) (rows : List Row) (ws : List WideRow) :
    Prop :=
  ∀ k l v, (k, l, v) ∈ meltWide ws ↔
    ∃ r, r ∈ rows ∧ key r = k ∧ r.label = l ∧ r.value = v

/-- Exactly one of the two axis selectors of `filter_pivot_data` is
supplied (after scalar-to-list coercion). -/
def oneAxisOnly (yearFilter : PyArg Int) (orgFilter : PyArg String) : Prop :=
  (orgFilter.toList?.isSome ∧ yearFilter.toList? = Option.none) ∨
  (orgFilter.toList? = Option.none ∧ yearFilter.toList?.isSome)

/-!
Entity reconciliation (analyse_pay.py lines 179-187 and 353-377): the
renaming dictionaries, the `Series.replace` renaming of the Organisation
column, the two one-sided set differences, and the assertions that both
are empty before the merge.
-/

/-- `CSPS_ORGANISATION_RENAMINGS` (analyse_pay.py lines 179-182). -/
def CSPS_ORGANISATION_RENAMINGS : List (String × String) :=
  [("Ministry of Housing, Communities & Local Government - 2024 iteration",
    "Ministry of Housing, Communities & Local Government"),
   ("Department for Education group (including agencies)",
    "Department for Education/Department for Education group")]

/-- `PAY_ORGANISATION_RENAMINGS` (analyse_pay.py lines 183-187). -/
def PAY_ORGANISATION_RENAMINGS : List (String × String) :=
  [("Ministry of Housing, Communities & Local Government - 2024 iteration",
    "Ministry of Housing, Communities & Local Government"),
   ("Department for Education",
    "Department for Education/Department for Education group"),
   ("Medicines and Healthcare Products Regulatory Agency",
    "Medicines and Healthcare products Regulatory Agency")]

/-- `Series.replace` with a dict on one organisation name: an exact match
is substituted, anything else is kept. -/
def applyRenaming (ren : List (String × String)) (s : String) : String :=
  match ren.find? (fun p => p.1 == s) with
  | some p => p.2
  | Option.none => s

/-- The CSPS-side renaming loop (analyse_pay.py lines 355-356) applied to
an organisation-name column. -/
def renamedCspsOrgs (orgs : List String) : List String :=
  orgs.map (applyRenaming CSPS_ORGANISATION_RENAMINGS)

/-- The pay-side renaming loop (analyse_pay.py lines 357-358) applied to
an organisation-name column. -/
def renamedPayOrgs (orgs : List String) : List String :=
  orgs.map (applyRenaming PAY_ORGANISATION_RENAMINGS)

/-- An organisation-matching failure, carrying the unmatched identifiers
and the side they came from, as the assertion messages at analyse_pay.py
lines 367-368 and 376-377 do. -/
inductive MatchErr
  | cspsMissingFromPay (orgs : List String)
  | payMissingFromCsps (orgs : List String)
  deriving DecidableEq

/-- `set(a) - set(b)` read off from list-valued columns: the distinct
members of `a` that do not appear in `b`. -/
def setDiff (a b : List String) : List String :=
  a.dedup.filter (fun x => !decide (x ∈ b))

/-- The organisation-matching check (analyse_pay.py lines 361-368, and
identically lines 371-377 for the department cut): compute both one-sided
set differences, then assert each is empty in turn, naming the unmatched
identifiers and their side on failure. -/
def checkOrganisationsMatched (cspsOrgs payOrgs : List String) :
    Except MatchErr Unit :=
  let cspsMissing := setDiff cspsOrgs payOrgs
  let payMissing := setDiff payOrgs cspsOrgs
  if !cspsMissing.isEmpty then
    Except.error (MatchErr.cspsMissingFromPay cspsMissing)
  else if !payMissing.isEmpty then
    Except.error (MatchErr.payMissingFromCsps payMissing)
  else Except.ok ()

/-- The reconciliation stage followed by the inner merge on Organisation
(analyse_pay.py lines 353-392): rename both organisation columns, run the
matching assertions, and only on success form the join's key set.  The
payload columns of the merge are irrelevant to the organisation-matching
claim, so the join is represented by the list of surviving keys. -/
def reconcileAndJoin (cspsOrgs payOrgs : List String) :
    Except MatchErr (List String) :=
  let c := renamedCspsOrgs cspsOrgs
  let p := renamedPayOrgs payOrgs
  match checkOrganisationsMatched c p with
  | Except.error e => Except.error e
  | Except.ok _ => Except.ok (c.filter (fun o => decide (o ∈ p)))

/-!
The pay-data cleaner (utils.py lines 216-257) together with the sentinel
handling of the loader (`pd.read_excel(..., na_values=PAY_NA_VALUES)`,
analyse_pay.py lines 78 and 202).  A raw spreadsheet cell of the measure
column is a number, a non-numeric string token, or already missing;
`pd.to_numeric` passes numbers through, keeps missing cells missing, and
raises on a non-numeric token.
-/

/-- A raw cell of the measure column as loaded from the spreadsheet:
`token` stands for a non-numeric string such as the suppression markers. -/
inductive RawCell
  | num (q : ℚ)
  | token (s : String)
  | missing
  deriving DecidableEq

/-- `PAY_NA_VALUES` (analyse_pay.py line 78). -/
def PAY_NA_VALUES : List String := ["[c]", "[n]", "-", ".."]

/-- The `na_values` handling of `pd.read_excel`: a string cell equal to
one of the configured markers is loaded as missing. -/
def applyNaValues (na : List String) (c : RawCell) : RawCell :=
  match c with
  | RawCell.token s => if s ∈ na then RawCell.missing else RawCell.token s
  | c => c

/-- `pd.to_numeric` on one cell: numbers pass through, a missing cell
stays missing, and a non-numeric string raises `ValueError` naming the
offending token. -/
def toNumericCell : RawCell → Except String (Option ℚ)
  | RawCell.num q => Except.ok (some q)
  | RawCell.missing => Except.ok Option.none
  | RawCell.token s => Except.error s

/-- A raw pay record as read from the spreadsheet (Year is kept as an
integer: the `astype(int)` coercion of an integer-valued column is the
identity and is not the subject of any claim). -/
structure RawPayRow where
  organisation : String
  deptGroup : String
  organisationType : String
  grade : String
  year : Int
  medianSalary : RawCell
  deriving DecidableEq

/-- A cleaned pay record, with the measure column numeric-or-missing. -/
structure PayRow where
  organisation : String
  deptGroup : String
  organisationType : String
  grade : String
  year : Int
  medianSalary : Option ℚ
  deriving DecidableEq

/-- Replace the measure cell of a raw record (used to lift the loader's
`na_values` conversion to whole rows). -/
def RawPayRow.mapSalary (f : RawCell → RawCell) (r : RawPayRow) : RawPayRow :=
  { r with medianSalary := f r.medianSalary }

/-- `edit_pay_data` (utils.py lines 216-257): restrict to the
"All employees" grade, coerce the measure column with `pd.to_numeric`
(raising on any non-numeric token in the restricted column), apply the
optional inclusive year bounds, then drop the configured departmental
groups. -/
def edit_pay_data (df : List RawPayRow) (deptGroupsToDrop : List String)
    (minYear maxYear : Option Int) : Except String (List PayRow) :=
  let d1 := df.filter (fun r => r.grade == "All employees")
  let coerced : Except String (List PayRow) :=
    d1.mapM (fun (r : RawPayRow) => (toNumericCell r.medianSalary).map (fun v =>
      { organisation := r.organisation, deptGroup := r.deptGroup,
        organisationType := r.organisationType, grade := r.grade,
        year := r.year, medianSalary := v }))
  match coerced with
  | Except.error s => Except.error s
  | Except.ok rows =>
    let d2 : List PayRow := match minYear with
      | some m => rows.filter (fun (r : PayRow) => decide (m ≤ r.year))
      | Option.none => rows
    let d3 : List PayRow := match maxYear with
      | some m => d2.filter (fun (r : PayRow) => decide (r.year ≤ m))
      | Option.none => d2
    Except.ok (d3.filter
      (fun (r : PayRow) => !decide (r.deptGroup ∈ deptGroupsToDrop)))

/-!
The CSPS department-level cut of analyse_pay.py: the pivot call at lines
294-301 followed by the renaming at lines 355-356.  The constants are
those of analyse_pay.py lines 85-86 and 154-164.
-/

/-- `CSPS_MEDIAN_ORGANISATION_NAME` (analyse_pay.py line 85). -/
def CSPS_MEDIAN_ORGANISATION_NAME : String := "Civil Service benchmark"

/-- `CSPS_MEAN_ORGANISATION_NAME` (analyse_pay.py line 86). -/
def CSPS_MEAN_ORGANISATION_NAME : String := "All employees"

/-- The organisation-type allowlist of `CSPS_DEPT_ONLY_CONDITIONS`
(analyse_pay.py line 155). -/
def CSPS_DEPT_TYPE_FILTER : List String := ["Ministerial department"]

/-- The exclude list of `CSPS_DEPT_ONLY_CONDITIONS` (analyse_pay.py lines
156-159). -/
def CSPS_DEPT_EXCLUDE_ORGS : List String :=
  ["Attorney General\x27s Office", "Export Credits Guarantee Department"]

/-- The include list of `CSPS_DEPT_ONLY_CONDITIONS` (analyse_pay.py lines
160-163). -/
def CSPS_DEPT_INCLUDE_ORGS : List String :=
  ["Department for Education group (including agencies)",
   "HM Revenue and Customs"]

/-- The full exclude list passed to the department-level pivot call
(analyse_pay.py line 298). -/
def CSPS_DEPT_FULL_EXCLUDE : List String :=
  [CSPS_MEDIAN_ORGANISATION_NAME, CSPS_MEAN_ORGANISATION_NAME] ++
    CSPS_DEPT_EXCLUDE_ORGS

/-- Rename the Organisation component of a pivot-table key, leaving
year-keyed tables untouched (the renaming loop at analyse_pay.py lines
355-356 rewrites the Organisation column of the organisation-keyed pivot
tables). -/
def renameWideOrg (ren : List (String × String)) (ws : List WideRow) :
    List WideRow :=
  ws.map (fun wr =>
    { wr with key := match wr.key with
        | GKey.byOrg o e => GKey.byOrg (applyRenaming ren o) e
        | k => k })

/-- The department-level 2024 CSPS cut as the script computes it:
`filter_pivot_data` with the department-only conditions (analyse_pay.py
lines 294-301), and only afterwards the organisation renaming
(analyse_pay.py lines 355-356). -/
def cspsDept2024Cut (df : List Row) : Except PivotErr (List WideRow) :=
  (filter_pivot_data df (PyArg.scalar 2024)
      (PyArg.ofList CSPS_DEPT_TYPE_FILTER) PyArg.none
      (some CSPS_DEPT_FULL_EXCLUDE) (some CSPS_DEPT_INCLUDE_ORGS)
      (some [PCol.organisationType])).map
    (renameWideOrg CSPS_ORGANISATION_RENAMINGS)

/-- Rename the Organisation column of a long-format row. -/
def renameRowOrg (ren : List (String × String)) (r : Row) : Row :=
  { r with organisation := applyRenaming ren r.organisation }

/-- The same cut in the order the specification asserts: rename the
organisation identifiers first, then apply the same include/exclude and
type filters to the renamed identifiers. -/
def cspsDept2024CutSpecOrder (df : List Row) : Except PivotErr (List WideRow) :=
  filter_pivot_data (df.map (renameRowOrg CSPS_ORGANISATION_RENAMINGS))
    (PyArg.scalar 2024) (PyArg.ofList CSPS_DEPT_TYPE_FILTER) PyArg.none
    (some CSPS_DEPT_FULL_EXCLUDE) (some CSPS_DEPT_INCLUDE_ORGS)
    (some [PCol.organisationType])

/-!
The regression engine (utils.py lines 406-465, duplicated in
analyse_theme_scores.py lines 273-332): the significance banding and the
per-theme batch loop with its two insufficient-data skips.  The numeric
OLS fit itself is performed by statsmodels, an external collaborator; the
embedding records, per theme, which branch of the loop was taken and how
many valid paired observations the fit received.
-/

/-- `get_significance_stars` (utils.py lines 418-427), with the float
literals 0.001, 0.01, 0.05 read as exact rationals. -/
def get_significance_stars (p : ℚ) : String :=
  if p < 1 / 1000 then "***"
  else if p < 1 / 100 then "**"
  else if p < 1 / 20 then "*"
  else ""

/-- A wide-table row for the regression engine: the Label columns with
their possibly missing values. -/
abbrev ARow := List (String × Option ℚ)

/-- Column access `row[label]` on a wide-table row. -/
def colVal (r : ARow) (lbl : String) : Option ℚ :=
  match r.find? (fun p => p.1 == lbl) with
  | some p => p.2
  | Option.none => Option.none

/-- The pairwise missing-value removal of utils.py lines 437-440: keep the
rows where both the theme column and the EEI column are present. -/
def validPairs (rows : List ARow) (theme eei : String) : List (ℚ × ℚ) :=
  rows.filterMap (fun r =>
    match colVal r theme, colVal r eei with
    | some x, some y => some (x, y)
    | _, _ => Option.none)

/-- What the loop body of `fit_eei_theme_regressions` prints for one
theme: one of the two insufficient-data skips, or a fitted model (whose
numeric coefficients come from statsmodels and carry no skip).  The
insufficient outcomes carry no coefficient by construction. -/
inductive RegOutcome
  | insufficientData (theme : String)
  | insufficientValidData (theme : String)
  | fitted (theme : String) (nObs : Nat)
  deriving DecidableEq

/-- One iteration of the `fit_eei_theme_regressions` loop (utils.py lines
429-444): skip when the frame has fewer than two rows, else drop rows with
a missing value in either column and skip when fewer than two remain, else
fit on the surviving pairs. -/
def regressionReport (rows : List ARow) (eei theme : String) : RegOutcome :=
  if rows.length < 2 then RegOutcome.insufficientData theme
  else
    let v := validPairs rows theme eei
    if v.length < 2 then RegOutcome.insufficientValidData theme
    else RegOutcome.fitted theme v.length

/-- `fit_eei_theme_regressions` (utils.py lines 406-465): the loop runs
over every configured theme in order, a skip for one theme never aborting
the rest of the batch. -/
def fit_eei_theme_regressions (rows : List ARow) (eei : String)
    (tsLabels : List String) : List RegOutcome :=
  tsLabels.map (regressionReport rows eei)

/-!
The deflator (analyse_pay.py lines 80-83 and 411-426): the base-year CPI
value is looked up with `.values[0]` (the first record of the base year,
an IndexError when there is none), every year's deflator is
base divided by that year's CPI, and deflated pay is the nominal value
times the matched deflator.
-/

/-- `CPI_DEFLATOR_BASE_YEAR` (analyse_pay.py line 83). -/
def CPI_DEFLATOR_BASE_YEAR : Int := 2025

/-- The deflator series (analyse_pay.py lines 413-415): look up the base
year's CPI value, then map every (Year, CPI) record to
(Year, base CPI / CPI).  `Option.none` models the IndexError raised by
`.values[0]` when the base year is absent. -/
def deflators (cpi : List (Int × ℚ)) (baseYear : Int) :
    Option (List (Int × ℚ)) :=
  match (cpi.filter (fun p => p.1 == baseYear)).head? with
  | Option.none => Option.none
  | some b => some (cpi.map (fun p => (p.1, b.2 / p.2)))

instance pairRelDecidable (key : Row → GKey) :
    DecidableRel (fun r s : Row => ¬ (key r = key s ∧ r.label = s.label)) :=
  fun _ _ => instDecidableNot

instance uniquePairsDecidable (key : Row → GKey) (rows : List Row) :
    Decidable (uniquePairs key rows) := by
  unfold uniquePairs
  infer_instance

instance exceptDecidableEq {ε α : Type} [DecidableEq ε] [DecidableEq α] :
    DecidableEq (Except ε α) := fun x y =>
  match x, y with
  | Except.error a, Except.error b =>
      if h : a = b then isTrue (by rw [h])
      else isFalse (fun hh => by cases hh; exact h rfl)
  | Except.ok a, Except.ok b =>
      if h : a = b then isTrue (by rw [h])
      else isFalse (fun hh => by cases hh; exact h rfl)
  | Except.error _, Except.ok _ => isFalse (fun hh => by cases hh)
  | Except.ok _, Except.error _ => isFalse (fun hh => by cases hh)

/-- Claim C6: the significance banding assigns three stars exactly when
p is below 0.001, two stars exactly on [0.001, 0.01), one star exactly on
[0.01, 0.05), and no stars otherwise, every boundary strict; in
particular p equal to 0.001 gets two stars while p equal to 0.0009999
gets three. -/
theorem significance_stars_bands :
    (∀ p : ℚ,
      (get_significance_stars p = "***" ↔ p < 1 / 1000) ∧
      (get_significance_stars p = "**" ↔ 1 / 1000 ≤ p ∧ p < 1 / 100) ∧
      (get_significance_stars p = "*" ↔ 1 / 100 ≤ p ∧ p < 1 / 20) ∧
      (get_significance_stars p = "" ↔ 1 / 20 ≤ p)) ∧
    get_significance_stars (1 / 1000) = "**" ∧
    get_significance_stars (9999 / 10000000) = "***" := by
  refine ⟨fun p => ?_, by norm_num [get_significance_stars],
    by norm_num [get_significance_stars]⟩
  unfold get_significance_stars
  split_ifs with h1 h2 h3 <;>
    refine ⟨⟨fun hs => ?_, fun hp => ?_⟩, ⟨fun hs => ?_, fun hp => ?_⟩,
      ⟨fun hs => ?_, fun hp => ?_⟩, ⟨fun hs => ?_, fun hp => ?_⟩⟩ <;>
    first
      | rfl
      | assumption
      | (exact absurd hs (by decide))
      | (push_neg at *; constructor <;> linarith)
      | (exact absurd hp.2 (by push_neg at *; linarith))
      | (exact absurd h1 (by push_neg at *; linarith))
      | (push_neg at *; linarith)

/-- Claim C8: for a CPI series containing the base year with a non-zero
index value (all base-year records agreeing on that value), the deflator
series is computed, the base year's deflator is exactly 1, and
multiplying any nominal value by the base year's deflator returns exactly
that nominal value. -/
theorem deflator_base_year_identity (cpi : List (Int × ℚ)) (baseYear : Int)
    (c : ℚ) (hmem : (baseYear, c) ∈ cpi)
    (huniq : ∀ p ∈ cpi, p.1 = baseYear → p.2 = c) (hc : c ≠ 0) :
    ∃ ds, deflators cpi baseYear = some ds ∧
      (baseYear, (1 : ℚ)) ∈ ds ∧
      (∀ p ∈ ds, p.1 = baseYear → p.2 = 1) ∧
      (∀ v : ℚ, ∀ p ∈ ds, p.1 = baseYear → v * p.2 = v) := by
  have hmemf : (baseYear, c) ∈ cpi.filter (fun p => p.1 == baseYear) := by
    simp [List.mem_filter, hmem]
  cases hh : (cpi.filter (fun p => p.1 == baseYear)).head? with
  | none =>
      rw [List.head?_eq_none_iff] at hh
      rw [hh] at hmemf
      exact absurd hmemf (List.not_mem_nil _)
  | some b =>
      have hbmemf : b ∈ cpi.filter (fun p => p.1 == baseYear) :=
        List.mem_of_mem_head? hh
      have hbmem : b ∈ cpi := (List.mem_filter.mp hbmemf).1
      have hb1 : b.1 = baseYear := by
        have := (List.mem_filter.mp hbmemf).2
        simpa using this
      have hb2 : b.2 = c := huniq b hbmem hb1
      refine ⟨cpi.map (fun p => (p.1, b.2 / p.2)), by simp [deflators, hh],
        ?_, ?_, ?_⟩
      · have : ((baseYear, c).1, b.2 / (baseYear, c).2) ∈
            cpi.map (fun p => (p.1, b.2 / p.2)) := List.mem_map_of_mem _ hmem
        simpa [hb2, div_self hc] using this
      · intro p hp hp1
        rcases List.mem_map.mp hp with ⟨q, hq, hqe⟩
        have hq1 : q.1 = baseYear := by
          have := congrArg Prod.fst hqe
          simpa [hp1] using this
        have hq2 : q.2 = c := huniq q hq hq1
        have := congrArg Prod.snd hqe
        simp only at this
        rw [← this, hq2, hb2, div_self hc]
      · intro v p hp hp1
        rcases List.mem_map.mp hp with ⟨q, hq, hqe⟩
        have hq1 : q.1 = baseYear := by
          have := congrArg Prod.fst hqe
          simpa [hp1] using this
        have hq2 : q.2 = c := huniq q hq hq1
        have := congrArg Prod.snd hqe
        simp only at this
        rw [← this, hq2, hb2, div_self hc, mul_one]

/-- Witness for the C8 theorem at a concrete two-year CPI series. -/
theorem deflator_base_year_identity_witness :
    ∃ ds, deflators [((2024 : Int), (130 : ℚ)), (2025, 140)] 2025 = some ds ∧
      ((2025 : Int), (1 : ℚ)) ∈ ds ∧
      (∀ p ∈ ds, p.1 = 2025 → p.2 = 1) ∧
      (∀ v : ℚ, ∀ p ∈ ds, p.1 = 2025 → v * p.2 = v) :=
  deflator_base_year_identity [((2024 : Int), (130 : ℚ)), (2025, 140)] 2025 140
    (by decide) (by decide) (by norm_num)

/-- Witness for the C6 theorem: a p-value strictly below 0.001 receives
three stars. -/
theorem significance_stars_bands_witness :
    get_significance_stars (1 / 2000) = "***" :=
  (significance_stars_bands.1 (1 / 2000)).1.mpr (by norm_num)

/-- Claim C7: whenever a theme of the batch has fewer than two valid
paired observations after pairwise missing-value removal, the engine
reports an insufficient-data skip for that theme (an outcome that carries
no coefficient), does not raise, and still produces one outcome for every
theme of the batch. -/
theorem regression_insufficient_data_skip (rows : List ARow) (eei : String)
    (ts : List String) (i : Nat) (hi : i < ts.length)
    (h : (validPairs rows (ts.get ⟨i, hi⟩) eei).length < 2) :
    (fit_eei_theme_regressions rows eei ts).length = ts.length ∧
    ∀ hlen : i < (fit_eei_theme_regressions rows eei ts).length,
      (fit_eei_theme_regressions rows eei ts).get ⟨i, hlen⟩ =
          RegOutcome.insufficientData (ts.get ⟨i, hi⟩) ∨
      (fit_eei_theme_regressions rows eei ts).get ⟨i, hlen⟩ =
          RegOutcome.insufficientValidData (ts.get ⟨i, hi⟩) := by
  constructor
  · simp [fit_eei_theme_regressions]
  · intro hlen
    have hget : (fit_eei_theme_regressions rows eei ts).get ⟨i, hlen⟩ =
        regressionReport rows eei (ts.get ⟨i, hi⟩) := by
      simp [fit_eei_theme_regressions]
    rw [hget]
    by_cases h1 : rows.length < 2
    · exact Or.inl (by simp [regressionReport, h1])
    · exact Or.inr (by simp [regressionReport, h1]; simpa using h)

/-- Witness for the C7 theorem: a batch of two themes over a single-row
frame, in which the first theme has one valid pair. -/
theorem regression_insufficient_data_skip_witness :
    (fit_eei_theme_regressions [[("T1", some 1), ("E", some 2)]] "E"
        ["T1", "T2"]).length = 2 ∧
    ∀ hlen : 0 < (fit_eei_theme_regressions [[("T1", some 1), ("E", some 2)]]
        "E" ["T1", "T2"]).length,
      (fit_eei_theme_regressions [[("T1", some 1), ("E", some 2)]] "E"
          ["T1", "T2"]).get ⟨0, hlen⟩ = RegOutcome.insufficientData "T1" ∨
      (fit_eei_theme_regressions [[("T1", some 1), ("E", some 2)]] "E"
          ["T1", "T2"]).get ⟨0, hlen⟩ =
        RegOutcome.insufficientValidData "T1" :=
  regression_insufficient_data_skip [[("T1", some 1), ("E", some 2)]] "E"
    ["T1", "T2"] 0 (by decide) (by decide)

/-- The distinct members of `a` all appear in `b` exactly when the
one-sided set difference is empty. -/
theorem setDiff_eq_nil_iff (a b : List String) :
    setDiff a b = [] ↔ ∀ x ∈ a, x ∈ b := by
  unfold setDiff
  rw [List.filter_eq_nil_iff]
  constructor
  · intro h x hx
    have := h x (List.mem_dedup.mpr hx)
    simpa using this
  · intro h x hx
    have := h x (List.mem_dedup.mp hx)
    simp [this]

/-- Claim C1: after the source-specific renamings, the reconciler
succeeds exactly when the two surviving organisation-identifier sets are
equal; whenever either one-sided set difference is non-empty it fails
with that difference named and attributed to its side, and the join is
never formed. -/
theorem reconciler_blocks_unmatched (cspsOrgs payOrgs : List String) :
    ((∃ t, reconcileAndJoin cspsOrgs payOrgs = Except.ok t) ↔
      (∀ o, o ∈ renamedCspsOrgs cspsOrgs ↔ o ∈ renamedPayOrgs payOrgs)) ∧
    (setDiff (renamedCspsOrgs cspsOrgs) (renamedPayOrgs payOrgs) ≠ [] →
      reconcileAndJoin cspsOrgs payOrgs = Except.error
        (MatchErr.cspsMissingFromPay
          (setDiff (renamedCspsOrgs cspsOrgs) (renamedPayOrgs payOrgs)))) ∧
    (setDiff (renamedCspsOrgs cspsOrgs) (renamedPayOrgs payOrgs) = [] →
      setDiff (renamedPayOrgs payOrgs) (renamedCspsOrgs cspsOrgs) ≠ [] →
      reconcileAndJoin cspsOrgs payOrgs = Except.error
        (MatchErr.payMissingFromCsps
          (setDiff (renamedPayOrgs payOrgs) (renamedCspsOrgs cspsOrgs)))) := by
  set c := renamedCspsOrgs cspsOrgs with hc
  set p := renamedPayOrgs payOrgs with hp
  refine ⟨?_, ?_, ?_⟩
  · constructor
    · rintro ⟨t, ht⟩ o
      unfold reconcileAndJoin checkOrganisationsMatched at ht
      rw [← hc, ← hp] at ht
      by_cases h1 : setDiff c p = []
      · by_cases h2 : setDiff p c = []
        · have hcp := (setDiff_eq_nil_iff c p).mp h1
          have hpc := (setDiff_eq_nil_iff p c).mp h2
          exact ⟨fun ho => hcp o ho, fun ho => hpc o ho⟩
        · simp [h1, h2, List.isEmpty_iff] at ht
      · simp [h1, List.isEmpty_iff] at ht
    · intro h
      have h1 : setDiff c p = [] :=
        (setDiff_eq_nil_iff c p).mpr (fun x hx => (h x).mp hx)
      have h2 : setDiff p c = [] :=
        (setDiff_eq_nil_iff p c).mpr (fun x hx => (h x).mpr hx)
      refine ⟨c.filter (fun o => decide (o ∈ p)), ?_⟩
      unfold reconcileAndJoin checkOrganisationsMatched
      rw [← hc, ← hp]
      simp [h1, h2, List.isEmpty_iff]
  · intro h1
    unfold reconcileAndJoin checkOrganisationsMatched
    rw [← hc, ← hp]
    simp [h1, List.isEmpty_iff]
  · intro h1 h2
    unfold reconcileAndJoin checkOrganisationsMatched
    rw [← hc, ← hp]
    simp [h1, h2, List.isEmpty_iff]

/-- Witness for the C1 theorem: two one-organisation sides whose renamed
identifiers disagree make the reconciler fail with the CSPS-side
identifier named. -/
theorem reconciler_blocks_unmatched_witness :
    setDiff (renamedCspsOrgs ["Org A"]) (renamedPayOrgs ["Org B"]) ≠ [] →
    reconcileAndJoin ["Org A"] ["Org B"] = Except.error
      (MatchErr.cspsMissingFromPay
        (setDiff (renamedCspsOrgs ["Org A"]) (renamedPayOrgs ["Org B"]))) :=
  (reconciler_blocks_unmatched ["Org A"] ["Org B"]).2.1

/-- Success characterisation of `filter_pivot_data`: a wide table comes
back exactly when the input frame is non-empty, the filtered frame is
non-empty, and exactly one axis selector was supplied.  In particular no
property of the data other than non-emptiness — duplicate keys included —
can make the pivot fail. -/
theorem pivot_ok_iff (df : List Row) (yearFilter : PyArg Int)
    (otypeFilter : PyArg String) (orgFilter : PyArg String)
    (excludeOrgs includeOrgs : Option (List String))
    (preserveColumns : Option (List PCol)) :
    (∃ w, filter_pivot_data df yearFilter otypeFilter orgFilter excludeOrgs
        includeOrgs preserveColumns = Except.ok w) ↔
      (df ≠ [] ∧
        filterRows df yearFilter.toList? otypeFilter.toList?
          orgFilter.toList? excludeOrgs includeOrgs ≠ [] ∧
        oneAxisOnly yearFilter orgFilter) := by
  unfold filter_pivot_data
  by_cases hdf : df.isEmpty
  · simp [hdf, List.isEmpty_iff.mp hdf]
  · have hdf2 : df ≠ [] := by
      intro hh
      exact hdf (by simp [hh])
    by_cases hfr : (filterRows df yearFilter.toList? otypeFilter.toList?
        orgFilter.toList? excludeOrgs includeOrgs).isEmpty
    · simp [hdf, hfr, List.isEmpty_iff.mp hfr]
    · have hfr2 : filterRows df yearFilter.toList? otypeFilter.toList?
          orgFilter.toList? excludeOrgs includeOrgs ≠ [] := by
        intro hh
        exact hfr (by simp [hh])
      cases orgFilter <;> cases yearFilter <;>
        simp_all [oneAxisOnly, PyArg.toList?]

/-- When neither or both axis selectors are supplied and the two
emptiness guards pass, `filter_pivot_data` raises precisely the
both-or-neither usage error. -/
theorem pivot_axis_error (df : List Row) (yearFilter : PyArg Int)
    (otypeFilter : PyArg String) (orgFilter : PyArg String)
    (excludeOrgs includeOrgs : Option (List String))
    (preserveColumns : Option (List PCol))
    (hax : ¬ oneAxisOnly yearFilter orgFilter) (hdf : df ≠ [])
    (hfr : filterRows df yearFilter.toList? otypeFilter.toList?
        orgFilter.toList? excludeOrgs includeOrgs ≠ []) :
    filter_pivot_data df yearFilter otypeFilter orgFilter excludeOrgs
      includeOrgs preserveColumns = Except.error PivotErr.axisUsage := by
  unfold filter_pivot_data
  have hdf2 : df.isEmpty = false := by
    cases df with
    | nil => exact absurd rfl hdf
    | cons a l => rfl
  rw [hdf2]
  simp only [Bool.false_eq_true, if_false]
  have hfr2 : (filterRows df yearFilter.toList? otypeFilter.toList?
      orgFilter.toList? excludeOrgs includeOrgs).isEmpty = false := by
    cases hh : filterRows df yearFilter.toList? otypeFilter.toList?
        orgFilter.toList? excludeOrgs includeOrgs with
    | nil => exact absurd hh hfr
    | cons a l => rfl
  rw [hfr2]
  simp only [Bool.false_eq_true, if_false]
  cases orgFilter <;> cases yearFilter <;>
    simp_all [oneAxisOnly, PyArg.toList?]

/-- Claim C3: a pivoted table is returned only when exactly one of the
two axis selectors is supplied; supplying both or neither never returns a
table (no default axis is chosen), and — once the empty-input and
empty-after-filter guards pass — raises precisely the usage error. -/
theorem pivot_axis_mutual_exclusion (df : List Row) (yearFilter : PyArg Int)
    (otypeFilter : PyArg String) (orgFilter : PyArg String)
    (excludeOrgs includeOrgs : Option (List String))
    (preserveColumns : Option (List PCol)) :
    (∀ w, filter_pivot_data df yearFilter otypeFilter orgFilter excludeOrgs
        includeOrgs preserveColumns = Except.ok w →
      oneAxisOnly yearFilter orgFilter) ∧
    (¬ oneAxisOnly yearFilter orgFilter →
      (∃ e, filter_pivot_data df yearFilter otypeFilter orgFilter excludeOrgs
        includeOrgs preserveColumns = Except.error e) ∧
      (df ≠ [] →
        filterRows df yearFilter.toList? otypeFilter.toList?
          orgFilter.toList? excludeOrgs includeOrgs ≠ [] →
        filter_pivot_data df yearFilter otypeFilter orgFilter excludeOrgs
          includeOrgs preserveColumns = Except.error PivotErr.axisUsage)) := by
  constructor
  · intro w hw
    exact ((pivot_ok_iff df yearFilter otypeFilter orgFilter excludeOrgs
      includeOrgs preserveColumns).mp ⟨w, hw⟩).2.2
  · intro hax
    constructor
    · cases hres : filter_pivot_data df yearFilter otypeFilter orgFilter
          excludeOrgs includeOrgs preserveColumns with
      | error e => exact ⟨e, rfl⟩
      | ok w =>
          exact absurd ((pivot_ok_iff df yearFilter otypeFilter orgFilter
            excludeOrgs includeOrgs preserveColumns).mp ⟨w, hres⟩).2.2 hax
    · intro hdf hfr
      exact pivot_axis_error df yearFilter otypeFilter orgFilter excludeOrgs
        includeOrgs preserveColumns hax hdf hfr

/-- Witness for the C3 theorem: supplying both a year and an organisation
filter on a one-row frame errors with the usage error. -/
theorem pivot_axis_mutual_exclusion_witness :
    ¬ oneAxisOnly (PyArg.scalar 2024) (PyArg.scalar "A") →
    (∃ e, filter_pivot_data [⟨"A", "T", "G", 2024, "EEI", 1⟩]
        (PyArg.scalar 2024) PyArg.none (PyArg.scalar "A") Option.none
        Option.none Option.none = Except.error e) ∧
    ([⟨"A", "T", "G", 2024, "EEI", 1⟩] ≠ ([] : List Row) →
      filterRows [⟨"A", "T", "G", 2024, "EEI", 1⟩] (PyArg.scalar 2024).toList?
        (PyArg.none : PyArg String).toList? (PyArg.scalar "A").toList?
        Option.none Option.none ≠ [] →
      filter_pivot_data [⟨"A", "T", "G", 2024, "EEI", 1⟩] (PyArg.scalar 2024)
        PyArg.none (PyArg.scalar "A") Option.none Option.none Option.none =
        Except.error PivotErr.axisUsage) :=
  (pivot_axis_mutual_exclusion [⟨"A", "T", "G", 2024, "EEI", 1⟩]
    (PyArg.scalar 2024) PyArg.none (PyArg.scalar "A") Option.none Option.none
    Option.none).2

/-- Claim C10: when only a year filter is supplied (no organisation-type
filter and no organisation filter), the include-override list has no
effect: the call returns exactly what the identical call with
include_orgs None returns, because the override is consulted only inside
the two organisation filter branches. -/
theorem include_orgs_inert_for_year_only (df : List Row)
    (yearFilter : PyArg Int) (excludeOrgs includeOrgs : Option (List String))
    (preserveColumns : Option (List PCol))
    (_hy : yearFilter.toList?.isSome = true) :
    filter_pivot_data df yearFilter PyArg.none PyArg.none excludeOrgs
      includeOrgs preserveColumns =
    filter_pivot_data df yearFilter PyArg.none PyArg.none excludeOrgs
      Option.none preserveColumns := rfl

/-- Witness for the C10 theorem at a concrete frame, year and include
list. -/
theorem include_orgs_inert_for_year_only_witness :
    filter_pivot_data [⟨"A", "T", "G", 2024, "EEI", 1⟩] (PyArg.scalar 2024)
      PyArg.none PyArg.none Option.none (some ["A"]) Option.none =
    filter_pivot_data [⟨"A", "T", "G", 2024, "EEI", 1⟩] (PyArg.scalar 2024)
      PyArg.none PyArg.none Option.none Option.none Option.none :=
  include_orgs_inert_for_year_only [⟨"A", "T", "G", 2024, "EEI", 1⟩]
    (PyArg.scalar 2024) Option.none (some ["A"]) Option.none (by decide)

/-- Membership in the rows of one pivot cell. -/
theorem mem_matchingRows (key : Row → GKey) (rows : List Row) (k : GKey)
    (l : String) (r : Row) :
    r ∈ matchingRows key rows k l ↔
      r ∈ rows ∧ key r = k ∧ r.label = l := by
  simp [matchingRows, List.mem_filter, and_assoc]

/-- Under unique (key, label) pairs, each pivot cell receives at most one
row. -/
theorem matchingRows_subsingleton (key : Row → GKey) (rows : List Row)
    (h : uniquePairs key rows) (k : GKey) (l : String) :
    matchingRows key rows k l = [] ∨
      ∃ r, matchingRows key rows k l = [r] := by
  have hpw : (matchingRows key rows k l).Pairwise
      (fun r s => ¬ (key r = key s ∧ r.label = s.label)) :=
    List.Pairwise.sublist (List.filter_sublist rows) h
  cases hm : matchingRows key rows k l with
  | nil => exact Or.inl rfl
  | cons a t =>
    cases t with
    | nil => exact Or.inr ⟨a, rfl⟩
    | cons b t2 =>
      exfalso
      rw [hm] at hpw
      have hR := (List.pairwise_cons.mp hpw).1 b (by simp)
      have ha : a ∈ matchingRows key rows k l := by rw [hm]; simp
      have hb : b ∈ matchingRows key rows k l := by rw [hm]; simp
      have hka := (mem_matchingRows key rows k l a).mp ha
      have hkb := (mem_matchingRows key rows k l b).mp hb
      exact hR ⟨by rw [hka.2.1, hkb.2.1], by rw [hka.2.2, hkb.2.2]⟩

/-- Under unique (key, label) pairs, a pivot cell holds exactly the value
of the unique row that falls into it. -/
theorem cellValue_eq_some_iff (key : Row → GKey) (rows : List Row)
    (h : uniquePairs key rows) (k : GKey) (l : String) (v : ℚ) :
    cellValue key rows k l = some v ↔
      ∃ r, r ∈ rows ∧ key r = k ∧ r.label = l ∧ r.value = v := by
  rcases matchingRows_subsingleton key rows h k l with hnil | ⟨r, hr⟩
  · constructor
    · intro hv
      simp [cellValue, hnil] at hv
    · rintro ⟨s, hs, hks, hls, hvs⟩
      have hmem : s ∈ matchingRows key rows k l :=
        (mem_matchingRows key rows k l s).mpr ⟨hs, hks, hls⟩
      rw [hnil] at hmem
      exact absurd hmem (List.not_mem_nil s)
  · have hrm : r ∈ matchingRows key rows k l := by rw [hr]; simp
    have hprops := (mem_matchingRows key rows k l r).mp hrm
    constructor
    · intro hv
      refine ⟨r, hprops.1, hprops.2.1, hprops.2.2, ?_⟩
      simp [cellValue, hr] at hv
      exact hv
    · rintro ⟨s, hs, hks, hls, hvs⟩
      have hmem : s ∈ matchingRows key rows k l :=
        (mem_matchingRows key rows k l s).mpr ⟨hs, hks, hls⟩
      rw [hr] at hmem
      have hsr : s = r := by simpa using hmem
      subst hsr
      simp [cellValue, hr, hvs]

/-- A melted triple of a pivot table is exactly a key of the table, a
label of the table, and the corresponding non-missing cell value. -/
theorem mem_meltWide_pivotTable (key : Row → GKey) (rows : List Row)
    (k : GKey) (l : String) (v : ℚ) :
    (k, l, v) ∈ meltWide (pivotTable key rows) ↔
      k ∈ (rows.map key).dedup ∧ l ∈ (rows.map Row.label).dedup ∧
        cellValue key rows k l = some v := by
  constructor
  · intro hm
    rcases List.mem_flatMap.mp hm with ⟨wr, hwr, hc⟩
    rcases List.mem_map.mp hwr with ⟨k0, hk0, hwr0⟩
    rcases List.mem_filterMap.mp hc with ⟨c, hc2, hcm⟩
    subst hwr0
    rcases List.mem_map.mp hc2 with ⟨l0, hl0, hc0⟩
    subst hc0
    rcases Option.map_eq_some.mp hcm with ⟨u, hu, hui⟩
    have h1 : k0 = k := congrArg (fun t => t.1) hui
    have h2 : l0 = l := congrArg (fun t => t.2.1) hui
    have h3 : u = v := congrArg (fun t => t.2.2) hui
    subst h1; subst h2; subst h3
    exact ⟨hk0, hl0, hu⟩
  · rintro ⟨hk, hl, hv⟩
    refine List.mem_flatMap.mpr
      ⟨{ key := k, cells := ((rows.map Row.label).dedup).map
          (fun l0 => (l0, cellValue key rows k l0)) },
        List.mem_map.mpr ⟨k, hk, rfl⟩, ?_⟩
    refine List.mem_filterMap.mpr
      ⟨(l, cellValue key rows k l), List.mem_map.mpr ⟨l, hl, rfl⟩, ?_⟩
    rw [hv]
    rfl

/-- The round-trip of the pivot: for a slice with unique (key, label)
pairs, pivoting and melting back reproduces exactly the slice's
(key, label, value) triples. -/
theorem pivotTable_roundtrip (key : Row → GKey) (rows : List Row)
    (h : uniquePairs key rows) :
    tripleSetEq key rows (pivotTable key rows) := by
  intro k l v
  rw [mem_meltWide_pivotTable key rows k l v]
  constructor
  · rintro ⟨_, _, hv⟩
    exact (cellValue_eq_some_iff key rows h k l v).mp hv
  · rintro ⟨r, hr, hk, hl, hv⟩
    refine ⟨?_, ?_, (cellValue_eq_some_iff key rows h k l v).mpr
      ⟨r, hr, hk, hl, hv⟩⟩
    · exact List.mem_dedup.mpr (List.mem_map.mpr ⟨r, hr, hk⟩)
    · exact List.mem_dedup.mpr (List.mem_map.mpr ⟨r, hr, hl⟩)

/-- Any wide table returned by `filter_pivot_data` is the pivot of the
filtered slice under one of the two axis keys. -/
theorem pivot_ok_shape (df : List Row) (yearFilter : PyArg Int)
    (otypeFilter : PyArg String) (orgFilter : PyArg String)
    (excludeOrgs includeOrgs : Option (List String))
    (preserveColumns : Option (List PCol)) (w : List WideRow)
    (hok : filter_pivot_data df yearFilter otypeFilter orgFilter excludeOrgs
      includeOrgs preserveColumns = Except.ok w) :
    w = pivotTable (rowKeyYear (preserveColumns.getD []))
        (filterRows df yearFilter.toList? otypeFilter.toList?
          orgFilter.toList? excludeOrgs includeOrgs) ∨
    w = pivotTable (rowKeyOrg (preserveColumns.getD []))
        (filterRows df yearFilter.toList? otypeFilter.toList?
          orgFilter.toList? excludeOrgs includeOrgs) := by
  unfold filter_pivot_data at hok
  by_cases hdf : df.isEmpty = true
  · rw [if_pos hdf] at hok
    exact Except.noConfusion hok
  · rw [if_neg hdf] at hok
    cases orgFilter <;> cases yearFilter <;>
      simp only [PyArg.toList?] at hok ⊢ <;>
      split_ifs at hok <;>
      first
        | exact Except.noConfusion hok
        | exact Or.inl ((Except.ok.injEq _ _).mp hok).symm
        | exact Or.inr ((Except.ok.injEq _ _).mp hok).symm

/-- Claim C9: whenever `filter_pivot_data` returns a wide table, that
table is the pivot of the filtered slice under one of the two axis keys,
and if the slice's (key, label) pairs are unique, melting the wide table
back yields exactly the slice's set of (key, label, value) triples. -/
theorem pivot_melt_roundtrip (df : List Row) (yearFilter : PyArg Int)
    (otypeFilter : PyArg String) (orgFilter : PyArg String)
    (excludeOrgs includeOrgs : Option (List String))
    (preserveColumns : Option (List PCol)) (w : List WideRow)
    (hok : filter_pivot_data df yearFilter otypeFilter orgFilter excludeOrgs
      includeOrgs preserveColumns = Except.ok w) :
    (w = pivotTable (rowKeyYear (preserveColumns.getD []))
        (filterRows df yearFilter.toList? otypeFilter.toList?
          orgFilter.toList? excludeOrgs includeOrgs) ∧
      (uniquePairs (rowKeyYear (preserveColumns.getD []))
          (filterRows df yearFilter.toList? otypeFilter.toList?
            orgFilter.toList? excludeOrgs includeOrgs) →
        tripleSetEq (rowKeyYear (preserveColumns.getD []))
          (filterRows df yearFilter.toList? otypeFilter.toList?
            orgFilter.toList? excludeOrgs includeOrgs) w)) ∨
    (w = pivotTable (rowKeyOrg (preserveColumns.getD []))
        (filterRows df yearFilter.toList? otypeFilter.toList?
          orgFilter.toList? excludeOrgs includeOrgs) ∧
      (uniquePairs (rowKeyOrg (preserveColumns.getD []))
          (filterRows df yearFilter.toList? otypeFilter.toList?
            orgFilter.toList? excludeOrgs includeOrgs) →
        tripleSetEq (rowKeyOrg (preserveColumns.getD []))
          (filterRows df yearFilter.toList? otypeFilter.toList?
            orgFilter.toList? excludeOrgs includeOrgs) w)) := by
  rcases pivot_ok_shape df yearFilter otypeFilter orgFilter excludeOrgs
      includeOrgs preserveColumns w hok with hw | hw
  · exact Or.inl ⟨hw, fun hu => by
      rw [hw]; exact pivotTable_roundtrip _ _ hu⟩
  · exact Or.inr ⟨hw, fun hu => by
      rw [hw]; exact pivotTable_roundtrip _ _ hu⟩

/-- Witness for the C9 theorem at a one-row frame pivoted by
organisation filter. -/
theorem pivot_melt_roundtrip_witness :
    (filter_pivot_data [⟨"A", "T", "G", 2024, "EEI", 1⟩] PyArg.none
        PyArg.none (PyArg.scalar "A") Option.none Option.none Option.none =
      Except.ok (pivotTable (rowKeyYear [])
        (filterRows [⟨"A", "T", "G", 2024, "EEI", 1⟩] Option.none Option.none
          (some ["A"]) Option.none Option.none))) ∧
    ((pivotTable (rowKeyYear [])
        (filterRows [⟨"A", "T", "G", 2024, "EEI", 1⟩] Option.none Option.none
          (some ["A"]) Option.none Option.none) =
      pivotTable (rowKeyYear ((Option.none : Option (List PCol)).getD []))
        (filterRows [⟨"A", "T", "G", 2024, "EEI", 1⟩]
          (PyArg.none : PyArg Int).toList? (PyArg.none : PyArg String).toList?
          (PyArg.scalar "A").toList? Option.none Option.none) ∧
      (uniquePairs (rowKeyYear ((Option.none : Option (List PCol)).getD []))
          (filterRows [⟨"A", "T", "G", 2024, "EEI", 1⟩]
            (PyArg.none : PyArg Int).toList?
            (PyArg.none : PyArg String).toList? (PyArg.scalar "A").toList?
            Option.none Option.none) →
        tripleSetEq (rowKeyYear ((Option.none : Option (List PCol)).getD []))
          (filterRows [⟨"A", "T", "G", 2024, "EEI", 1⟩]
            (PyArg.none : PyArg Int).toList?
            (PyArg.none : PyArg String).toList? (PyArg.scalar "A").toList?
            Option.none Option.none)
          (pivotTable (rowKeyYear [])
            (filterRows [⟨"A", "T", "G", 2024, "EEI", 1⟩] Option.none
              Option.none (some ["A"]) Option.none Option.none)))) ∨
     (pivotTable (rowKeyYear [])
        (filterRows [⟨"A", "T", "G", 2024, "EEI", 1⟩] Option.none Option.none
          (some ["A"]) Option.none Option.none) =
      pivotTable (rowKeyOrg ((Option.none : Option (List PCol)).getD []))
        (filterRows [⟨"A", "T", "G", 2024, "EEI", 1⟩]
          (PyArg.none : PyArg Int).toList? (PyArg.none : PyArg String).toList?
          (PyArg.scalar "A").toList? Option.none Option.none) ∧
      (uniquePairs (rowKeyOrg ((Option.none : Option (List PCol)).getD []))
          (filterRows [⟨"A", "T", "G", 2024, "EEI", 1⟩]
            (PyArg.none : PyArg Int).toList?
            (PyArg.none : PyArg String).toList? (PyArg.scalar "A").toList?
            Option.none Option.none) →
        tripleSetEq (rowKeyOrg ((Option.none : Option (List PCol)).getD []))
          (filterRows [⟨"A", "T", "G", 2024, "EEI", 1⟩]
            (PyArg.none : PyArg Int).toList?
            (PyArg.none : PyArg String).toList? (PyArg.scalar "A").toList?
            Option.none Option.none)
          (pivotTable (rowKeyYear [])
            (filterRows [⟨"A", "T", "G", 2024, "EEI", 1⟩] Option.none
              Option.none (some ["A"]) Option.none Option.none))))) :=
  ⟨rfl, pivot_melt_roundtrip [⟨"A", "T", "G", 2024, "EEI", 1⟩] PyArg.none
    PyArg.none (PyArg.scalar "A") Option.none Option.none Option.none
    (pivotTable (rowKeyYear [])
      (filterRows [⟨"A", "T", "G", 2024, "EEI", 1⟩] Option.none Option.none
        (some ["A"]) Option.none Option.none)) rfl⟩

/-- The value in a non-missing pivot cell is the arithmetic mean of the
values of the rows that fall into that cell. -/
theorem mem_pivotTable_cell (key : Row → GKey) (rows : List Row) (k : GKey)
    (cells : List (String × Option ℚ)) (l : String) (v : ℚ)
    (hw : ({ key := k, cells := cells } : WideRow) ∈ pivotTable key rows)
    (hc : (l, some v) ∈ cells) :
    v = ((matchingRows key rows k l).map Row.value).sum /
        (((matchingRows key rows k l).map Row.value).length : ℚ) := by
  rcases List.mem_map.mp hw with ⟨k0, _, hke⟩
  have hkey : k0 = k := congrArg WideRow.key hke
  subst hkey
  have hcells : ((rows.map Row.label).dedup).map
      (fun l0 => (l0, cellValue key rows k0 l0)) = cells :=
    congrArg WideRow.cells hke
  rw [← hcells] at hc
  rcases List.mem_map.mp hc with ⟨l0, _, hle⟩
  have hl : l0 = l := congrArg Prod.fst hle
  subst hl
  have hv : cellValue key rows k0 l0 = some v := congrArg Prod.snd hle
  simp only [cellValue] at hv
  split_ifs at hv
  exact ((Option.some.injEq _ _).mp hv).symm

/-- Claim C2 (amended): duplicate (group key, label) pairs never make the
pivot fail — the pivot succeeds exactly when the frame, the filtered
slice and the axis usage allow it — and every non-missing cell of a
returned table holds the arithmetic mean of all values falling into the
cell, pandas pivot_table's default aggregation of duplicates. -/
theorem pivot_aggregates_duplicates (df : List Row) (yearFilter : PyArg Int)
    (otypeFilter : PyArg String) (orgFilter : PyArg String)
    (excludeOrgs includeOrgs : Option (List String))
    (preserveColumns : Option (List PCol)) :
    ((∃ w, filter_pivot_data df yearFilter otypeFilter orgFilter excludeOrgs
        includeOrgs preserveColumns = Except.ok w) ↔
      (df ≠ [] ∧
        filterRows df yearFilter.toList? otypeFilter.toList?
          orgFilter.toList? excludeOrgs includeOrgs ≠ [] ∧
        oneAxisOnly yearFilter orgFilter)) ∧
    (∀ w, filter_pivot_data df yearFilter otypeFilter orgFilter excludeOrgs
        includeOrgs preserveColumns = Except.ok w →
      ∀ k cells, ({ key := k, cells := cells } : WideRow) ∈ w →
        ∀ l v, (l, some v) ∈ cells →
          ∃ key, (key = rowKeyYear (preserveColumns.getD []) ∨
              key = rowKeyOrg (preserveColumns.getD [])) ∧
            v = ((matchingRows key
                  (filterRows df yearFilter.toList? otypeFilter.toList?
                    orgFilter.toList? excludeOrgs includeOrgs)
                  k l).map Row.value).sum /
                (((matchingRows key
                  (filterRows df yearFilter.toList? otypeFilter.toList?
                    orgFilter.toList? excludeOrgs includeOrgs)
                  k l).map Row.value).length : ℚ)) := by
  refine ⟨pivot_ok_iff df yearFilter otypeFilter orgFilter excludeOrgs
    includeOrgs preserveColumns, ?_⟩
  intro w hok k cells hkc l v hlv
  rcases pivot_ok_shape df yearFilter otypeFilter orgFilter excludeOrgs
      includeOrgs preserveColumns w hok with hw | hw
  · subst hw
    exact ⟨rowKeyYear (preserveColumns.getD []), Or.inl rfl,
      mem_pivotTable_cell _ _ k cells l v hkc hlv⟩
  · subst hw
    exact ⟨rowKeyOrg (preserveColumns.getD []), Or.inr rfl,
      mem_pivotTable_cell _ _ k cells l v hkc hlv⟩

/-- Claim C2 counterexample: a frame holding two rows with the same
(organisation key, label) pair pivots without any error, the two values 1
and 3 combined into their mean 2 — the pivot does not raise on duplicate
keys. -/
theorem pivot_duplicates_counterexample :
    filter_pivot_data
        [⟨"A", "T", "G", 2024, "EEI", 1⟩, ⟨"A", "T", "G", 2024, "EEI", 3⟩]
        (PyArg.scalar 2024) PyArg.none PyArg.none Option.none Option.none
        Option.none =
      Except.ok [⟨GKey.byOrg "A" [], [("EEI", some 2)]⟩] ∧
    ¬ uniquePairs (rowKeyOrg [])
      (filterRows
        [⟨"A", "T", "G", 2024, "EEI", 1⟩, ⟨"A", "T", "G", 2024, "EEI", 3⟩]
        (some [2024]) Option.none Option.none Option.none Option.none) := by
  constructor
  · norm_num [filter_pivot_data, filterRows, pivotTable, matchingRows,
      cellValue, PyArg.toList?, rowKeyOrg, List.dedup]
  · intro h
    simp [uniquePairs, filterRows, rowKeyOrg] at h

/-- Witness for the amended C2 theorem: the duplicate-key frame satisfies
the success conditions and the pivot indeed returns a table. -/
theorem pivot_aggregates_duplicates_witness :
    ∃ w, filter_pivot_data
        [⟨"A", "T", "G", 2024, "EEI", 1⟩, ⟨"A", "T", "G", 2024, "EEI", 3⟩]
        (PyArg.scalar 2024) PyArg.none PyArg.none Option.none Option.none
        Option.none = Except.ok w :=
  (pivot_aggregates_duplicates
      [⟨"A", "T", "G", 2024, "EEI", 1⟩, ⟨"A", "T", "G", 2024, "EEI", 3⟩]
      (PyArg.scalar 2024) PyArg.none PyArg.none Option.none Option.none
      Option.none).1.mpr
    ⟨by decide, by decide, Or.inr ⟨rfl, by decide⟩⟩

/-- Membership in the filtered slice of the department-level cut: a row
survives exactly when its year is 2024, its (original) organisation type
passes the allowlist or its (original) organisation name is in the
include list, and its (original) organisation name is not excluded. -/
theorem mem_dept_filterRows (df : List Row) (r : Row) :
    r ∈ filterRows df (some [2024]) (some CSPS_DEPT_TYPE_FILTER) Option.none
        (some CSPS_DEPT_FULL_EXCLUDE) (some CSPS_DEPT_INCLUDE_ORGS) ↔
      r ∈ df ∧ r.year = 2024 ∧
        (r.organisationType ∈ CSPS_DEPT_TYPE_FILTER ∨
          r.organisation ∈ CSPS_DEPT_INCLUDE_ORGS) ∧
        r.organisation ∉ CSPS_DEPT_FULL_EXCLUDE := by
  have h1 : CSPS_DEPT_INCLUDE_ORGS.isEmpty = false := rfl
  have h2 : CSPS_DEPT_FULL_EXCLUDE.isEmpty = false := rfl
  simp [filterRows, includeHit, h1, h2, List.mem_filter, and_assoc]
  tauto

/-- Claim C5 (amended): in the scripts the include/exclude lists and the
organisation-type allowlist are applied to the original (pre-rename)
organisation spellings first, and the rename mapping is applied
afterwards to the surviving rows: an organisation appears in the
department-level cut exactly when some input row passes the type, include
and exclude tests on its original spelling and renames to that
organisation. -/
theorem dept_cut_prerename (df : List Row) (w : List WideRow)
    (hok : cspsDept2024Cut df = Except.ok w) :
    ∀ o extra, (∃ wr ∈ w, wr.key = GKey.byOrg o extra) ↔
      ∃ r, r ∈ df ∧ r.year = 2024 ∧
        (r.organisationType ∈ CSPS_DEPT_TYPE_FILTER ∨
          r.organisation ∈ CSPS_DEPT_INCLUDE_ORGS) ∧
        r.organisation ∉ CSPS_DEPT_FULL_EXCLUDE ∧
        applyRenaming CSPS_ORGANISATION_RENAMINGS r.organisation = o ∧
        [r.organisationType] = extra := by
  intro o extra
  unfold cspsDept2024Cut at hok
  cases hres : filter_pivot_data df (PyArg.scalar 2024)
      (PyArg.ofList CSPS_DEPT_TYPE_FILTER) PyArg.none
      (some CSPS_DEPT_FULL_EXCLUDE) (some CSPS_DEPT_INCLUDE_ORGS)
      (some [PCol.organisationType]) with
  | error e =>
      rw [hres] at hok
      exact Except.noConfusion hok
  | ok w0 =>
      rw [hres] at hok
      have hw : renameWideOrg CSPS_ORGANISATION_RENAMINGS w0 = w :=
        (Except.ok.injEq _ _).mp hok
      unfold filter_pivot_data at hres
      split_ifs at hres
      simp only [PyArg.toList?] at hres
      split_ifs at hres with hfre
      have hw0 : pivotTable (rowKeyOrg [PCol.organisationType])
          (filterRows df (some [2024]) (some CSPS_DEPT_TYPE_FILTER)
            Option.none (some CSPS_DEPT_FULL_EXCLUDE)
            (some CSPS_DEPT_INCLUDE_ORGS)) = w0 :=
        (Except.ok.injEq _ _).mp hres
      subst hw
      rw [← hw0]
      set fr := filterRows df (some [2024]) (some CSPS_DEPT_TYPE_FILTER)
        Option.none (some CSPS_DEPT_FULL_EXCLUDE)
        (some CSPS_DEPT_INCLUDE_ORGS) with hfr
      constructor
      · rintro ⟨wr, hwr, hkey⟩
        rcases List.mem_map.mp hwr with ⟨wr0, hwr0, hre⟩
        rcases List.mem_map.mp hwr0 with ⟨k0, hk0, hke⟩
        rcases List.mem_map.mp (List.mem_dedup.mp hk0) with ⟨r, hr, hkr⟩
        refine ⟨r, ?_⟩
        have hrfm := (mem_dept_filterRows df r).mp (hfr ▸ hr)
        have hkey0 : wr0.key = k0 := by rw [← hke]
        rw [← hre] at hkey
        simp only [renameWideOrg] at hkey
        rw [hkey0, ← hkr] at hkey
        simp only [rowKeyOrg, List.map, PCol.colValue] at hkey
        have hoe : GKey.byOrg
            (applyRenaming CSPS_ORGANISATION_RENAMINGS r.organisation)
            [r.organisationType] = GKey.byOrg o extra := hkey
        have ho := (GKey.byOrg.injEq _ _ _ _).mp hoe
        exact ⟨hrfm.1, hrfm.2.1, hrfm.2.2.1, hrfm.2.2.2, ho.1, ho.2⟩
      · rintro ⟨r, hr, hy, hin, hexc, ho, hext⟩
        have hrfm : r ∈ fr :=
          hfr ▸ (mem_dept_filterRows df r).mpr ⟨hr, hy, hin, hexc⟩
        have hk0 : rowKeyOrg [PCol.organisationType] r ∈
            ((fr.map (rowKeyOrg [PCol.organisationType])).dedup) :=
          List.mem_dedup.mpr (List.mem_map_of_mem _ hrfm)
        refine ⟨_, List.mem_map.mpr
          ⟨_, List.mem_map.mpr ⟨_, hk0, rfl⟩, rfl⟩, ?_⟩
        simp only [renameWideOrg, rowKeyOrg, List.map, PCol.colValue]
        rw [ho, hext]

/-- Claim C5 counterexample: on a frame holding the Department for
Education group row (whose include-list entry is its original spelling)
and an HMRC row, filtering on original spellings and renaming afterwards
(the code) differs from renaming first and filtering the canonical
spellings (the claim's order): the claimed order drops the renamed
Department for Education row that the code keeps. -/
theorem rename_order_counterexample :
    cspsDept2024Cut
        [⟨"Department for Education group (including agencies)",
          "Ministerial department group", "DfE", 2024,
          "Employee Engagement Index", 70⟩,
         ⟨"HM Revenue and Customs", "Non-ministerial department", "HMRC",
          2024, "Employee Engagement Index", 60⟩] ≠
      cspsDept2024CutSpecOrder
        [⟨"Department for Education group (including agencies)",
          "Ministerial department group", "DfE", 2024,
          "Employee Engagement Index", 70⟩,
         ⟨"HM Revenue and Customs", "Non-ministerial department", "HMRC",
          2024, "Employee Engagement Index", 60⟩] := by
  intro h
  have h2 := congrArg (fun e => match e with
    | Except.ok w => w.map WideRow.key
    | Except.error _ => ([] : List GKey)) h
  exact absurd h2 (by decide)

/-- Witness for the amended C5 theorem at a one-row HMRC frame. -/
theorem dept_cut_prerename_witness :
    (∃ wr ∈ renameWideOrg CSPS_ORGANISATION_RENAMINGS
        (pivotTable (rowKeyOrg [PCol.organisationType])
          (filterRows [⟨"HM Revenue and Customs",
              "Non-ministerial department", "HMRC", 2024,
              "Employee Engagement Index", 60⟩]
            (some [2024]) (some CSPS_DEPT_TYPE_FILTER) Option.none
            (some CSPS_DEPT_FULL_EXCLUDE) (some CSPS_DEPT_INCLUDE_ORGS))),
      wr.key = GKey.byOrg "HM Revenue and Customs"
        ["Non-ministerial department"]) ↔
      ∃ r, r ∈ ([⟨"HM Revenue and Customs", "Non-ministerial department",
          "HMRC", 2024, "Employee Engagement Index", 60⟩] : List Row) ∧
        r.year = 2024 ∧
        (r.organisationType ∈ CSPS_DEPT_TYPE_FILTER ∨
          r.organisation ∈ CSPS_DEPT_INCLUDE_ORGS) ∧
        r.organisation ∉ CSPS_DEPT_FULL_EXCLUDE ∧
        applyRenaming CSPS_ORGANISATION_RENAMINGS r.organisation =
          "HM Revenue and Customs" ∧
        [r.organisationType] = ["Non-ministerial department"] :=
  dept_cut_prerename
    [⟨"HM Revenue and Customs", "Non-ministerial department", "HMRC", 2024,
      "Employee Engagement Index", 60⟩]
    (renameWideOrg CSPS_ORGANISATION_RENAMINGS
      (pivotTable (rowKeyOrg [PCol.organisationType])
        (filterRows [⟨"HM Revenue and Customs", "Non-ministerial department",
            "HMRC", 2024, "Employee Engagement Index", 60⟩]
          (some [2024]) (some CSPS_DEPT_TYPE_FILTER) Option.none
          (some CSPS_DEPT_FULL_EXCLUDE) (some CSPS_DEPT_INCLUDE_ORGS))))
    rfl "HM Revenue and Customs" ["Non-ministerial department"]

/-- A `List.mapM` over `Except` succeeds when the function succeeds on
every member. -/
theorem exceptMapM_ok {α β : Type} (f : α → Except String β) :
    ∀ l : List α, (∀ a ∈ l, ∃ b, f a = Except.ok b) →
      ∃ l2, l.mapM f = Except.ok l2
  | [], _ => ⟨[], rfl⟩
  | a :: l, h => by
      rcases h a (by simp) with ⟨b, hb⟩
      rcases exceptMapM_ok f l (fun x hx => h x (by simp [hx])) with ⟨l2, hl⟩
      exact ⟨b :: l2, by rw [List.mapM_cons, hb, hl]; rfl⟩

/-- Claim C4 counterexample: the cleaner itself, given a raw table whose
measure column holds the sentinel token for a suppressed value, raises
(the pandas `to_numeric` `ValueError`) instead of mapping the token to a
missing value; the sentinel-to-missing conversion lives in the loader's
`na_values`, not in the cleaner. -/
theorem cleaner_sentinel_counterexample :
    "[c]" ∈ PAY_NA_VALUES ∧
    edit_pay_data
        [⟨"Org", "G", "T", "All employees", 2025, RawCell.token "[c]"⟩]
        [] Option.none Option.none = Except.error "[c]" :=
  ⟨by decide, rfl⟩

/-- Claim C4 (amended): in the pay pipeline the loader's `na_values`
conversion turns every sentinel token into a missing cell before the
cleaner runs; after that conversion the cleaner succeeds on any table
whose remaining tokens (in the grade-restricted rows) are all sentinels,
and each sentinel cell comes out of the numeric coercion as missing
rather than raising. -/
theorem loader_sentinels_become_missing (df : List RawPayRow)
    (deptGroupsToDrop : List String) (minYear maxYear : Option Int)
    (h : ∀ r ∈ df, r.grade = "All employees" →
      ∀ s, r.medianSalary = RawCell.token s → s ∈ PAY_NA_VALUES) :
    (∃ rows, edit_pay_data
        (df.map (RawPayRow.mapSalary (applyNaValues PAY_NA_VALUES)))
        deptGroupsToDrop minYear maxYear = Except.ok rows) ∧
    (∀ s ∈ PAY_NA_VALUES,
      toNumericCell (applyNaValues PAY_NA_VALUES (RawCell.token s)) =
        Except.ok Option.none) := by
  constructor
  · have hcells : ∀ m ∈ (df.map (RawPayRow.mapSalary
        (applyNaValues PAY_NA_VALUES))).filter
          (fun r => r.grade == "All employees"),
        ∃ v, toNumericCell m.medianSalary = Except.ok v := by
      intro m hm
      have hmm := List.mem_filter.mp hm
      rcases List.mem_map.mp hmm.1 with ⟨r, hr, hre⟩
      have hgrade : m.grade = "All employees" := by
        simpa using hmm.2
      have hgr : r.grade = "All employees" := by
        rw [← hre] at hgrade
        exact hgrade
      have hsal : m.medianSalary = applyNaValues PAY_NA_VALUES
          r.medianSalary := by
        rw [← hre]
        rfl
      rw [hsal]
      cases hrs : r.medianSalary with
      | num q => exact ⟨some q, rfl⟩
      | missing => exact ⟨Option.none, rfl⟩
      | token s =>
          have hna : s ∈ PAY_NA_VALUES := h r hr hgr s hrs
          refine ⟨Option.none, ?_⟩
          simp [applyNaValues, hna, toNumericCell]
    have hex : ∀ m ∈ (df.map (RawPayRow.mapSalary
        (applyNaValues PAY_NA_VALUES))).filter
          (fun r => r.grade == "All employees"),
        ∃ b, (fun (r : RawPayRow) =>
            (toNumericCell r.medianSalary).map (fun v =>
              ({ organisation := r.organisation, deptGroup := r.deptGroup,
                 organisationType := r.organisationType, grade := r.grade,
                 year := r.year, medianSalary := v } : PayRow))) m =
          Except.ok b := by
      intro m hm
      rcases hcells m hm with ⟨v, hv⟩
      refine ⟨⟨m.organisation, m.deptGroup, m.organisationType, m.grade,
        m.year, v⟩, ?_⟩
      show (toNumericCell m.medianSalary).map _ = _
      rw [hv]
      rfl
    rcases exceptMapM_ok _ _ hex with ⟨l2, hl2⟩
    simp only [edit_pay_data, hl2]
    exact ⟨_, rfl⟩
  · intro s hs
    simp [applyNaValues, hs, toNumericCell]

/-- Witness for the amended C4 theorem: a one-row table carrying the
suppression sentinel cleans to a missing value after the loader's
conversion. -/
theorem loader_sentinels_become_missing_witness :
    (∃ rows, edit_pay_data
        ([⟨"Org", "G", "T", "All employees", 2025,
            RawCell.token "[c]"⟩].map
          (RawPayRow.mapSalary (applyNaValues PAY_NA_VALUES)))
        [] Option.none Option.none = Except.ok rows) ∧
    (∀ s ∈ PAY_NA_VALUES,
      toNumericCell (applyNaValues PAY_NA_VALUES (RawCell.token s)) =
        Except.ok Option.none) :=
  loader_sentinels_become_missing
    [⟨"Org", "G", "T", "All employees", 2025, RawCell.token "[c]"⟩]
    [] Option.none Option.none
    (by intro r hr hg s hs
        have hre : r = ⟨"Org", "G", "T", "All employees", 2025,
            RawCell.token "[c]"⟩ := by simpa using hr
        subst hre
        have hse : "[c]" = s := (RawCell.token.injEq _ _).mp hs
        rw [← hse]
        decide)

end Csps
